import Mathlib

/-!
Shallow embedding of the session/auth core of the onboarding-portal
front end (src/src/contexts/AuthContext.tsx) and of the admin dashboard
data loader (src/unnamed/part_000), together with theorems settling the
behavioral claims about them.

The browser pieces are modelled explicitly:
  - durable client storage (localStorage) is a record of the two keys the
    code uses, authToken and userData;
  - JSON.parse of the stored identity is a parameter
    parse : String -> Option User (none models a parse exception);
  - JSON.stringify of the identity is a parameter serialize : User -> String;
  - observable side effects (storage writes, storage removals, navigation,
    busy-indicator updates) are recorded in an ordered effect list.
-/

namespace OnboardingPortal

/-- The User record of AuthContext.tsx: id, name, email, optional phone,
role (the string "admin" or "user"), optional start date. -/
structure User where
  id : String
  name : String
  email : String
  phone : Option String
  role : String
  startDate : Option String
deriving DecidableEq, Repr

/-- The in-memory React state of AuthProvider: user, token, loading. -/
structure AuthState where
  user : Option User
  token : Option String
  loading : Bool
deriving DecidableEq, Repr

/-- Durable client storage, restricted to the two keys AuthContext uses:
authToken (bearer token) and userData (serialized identity). -/
structure Storage where
  authToken : Option String
  userData : Option String
deriving DecidableEq, Repr

/-- Observable side effects of the session operations, in program order. -/
inductive Effect where
  | setLoading (b : Bool)
  | setItem (key : String) (value : String)
  | removeItem (key : String)
  | navigate (url : String)
deriving DecidableEq, Repr

/-- Initial React state of AuthProvider before the mount effect runs:
useState(null), useState(null), useState(true). -/
def initialAuthState : AuthState :=
  { user := none, token := none, loading := true }

/-- JavaScript a || b on strings where a may be undefined: a is taken
when present and non-empty (the empty string is falsy), otherwise b. -/
def jsOrStr (a : Option String) (b : String) : String :=
  match a with
  | some s => if s = "" then b else s
  | none => b

/-- The user payload of the login API response, as the login code reads it:
userData._id || userData.id plus the profile fields. -/
structure ApiUser where
  idMongo : Option String
  id : String
  name : String
  email : String
  phone : Option String
  role : String
  startDate : Option String
deriving DecidableEq, Repr

/-- Mapping of the API user payload to the stored User record, as written
in login: id is userData._id || userData.id, other fields copied. -/
def mapApiUser (au : ApiUser) : User :=
  { id := jsOrStr au.idMongo au.id
  , name := au.name
  , email := au.email
  , phone := au.phone
  , role := au.role
  , startDate := au.startDate }

/-- The data field of a successful login response: accessToken and user. -/
structure LoginData where
  accessToken : String
  user : ApiUser
deriving DecidableEq, Repr

/-- The login API response shape: success flag and optional data. -/
structure LoginResult where
  success : Bool
  data : Option LoginData
deriving DecidableEq, Repr

/-- Outcome of the awaited authAPI.login call: a resolved response, or a
rejection (transport or parsing exception). -/
inductive ApiOutcome where
  | ok (r : LoginResult)
  | threw
deriving DecidableEq, Repr

/-- The mount effect of AuthProvider (lines 42-62 of AuthContext.tsx), on
the client. Reads both keys; when both are present it first sets the
token, then parses the stored identity: on success the user is set too,
on a parse exception the catch removes both keys from storage while the
already-applied token update stays. setLoading(false) runs at the end of
every path. Returns the resulting React state, the resulting storage and
the ordered effect list. -/
def initSession (parse : String → Option User) (store : Storage) :
    AuthState × Storage × List Effect :=
  match store.authToken, store.userData with
  | some storedToken, some storedUser =>
    match parse storedUser with
    | some u =>
        ({ user := some u, token := some storedToken, loading := false },
         store,
         [Effect.setLoading false])
    | none =>
        ({ user := none, token := some storedToken, loading := false },
         { authToken := none, userData := none },
         [Effect.removeItem "authToken", Effect.removeItem "userData",
          Effect.setLoading false])
  | _, _ =>
      ({ user := none, token := none, loading := false }, store,
       [Effect.setLoading false])

/-- The login operation (lines 64-102 of AuthContext.tsx). setLoading(true),
await of the API call (its outcome is a parameter); on success with data
the token and mapped user are set and both keys written to storage and
true returned; on a failure response false is returned with state and
storage untouched; a thrown exception is caught and converted to false.
The finally clause runs setLoading(false) on every path. The embedding is
a total function: no exception propagates to the caller. Returns the
boolean result, the resulting React state, storage and effect list. -/
def login (serialize : User → String) (st : AuthState) (store : Storage)
    (outcome : ApiOutcome) : Bool × AuthState × Storage × List Effect :=
  match outcome with
  | ApiOutcome.threw =>
      (false, { st with loading := false }, store,
       [Effect.setLoading true, Effect.setLoading false])
  | ApiOutcome.ok r =>
    match r.success, r.data with
    | true, some d =>
        let u := mapApiUser d.user
        (true,
         { user := some u, token := some d.accessToken, loading := false },
         { authToken := some d.accessToken, userData := some (serialize u) },
         [Effect.setLoading true,
          Effect.setItem "authToken" d.accessToken,
          Effect.setItem "userData" (serialize u),
          Effect.setLoading false])
    | _, _ =>
        (false, { st with loading := false }, store,
         [Effect.setLoading true, Effect.setLoading false])

/-- The logout operation (lines 104-115 of AuthContext.tsx): clears user
and token, removes both keys from storage, navigates to /auth/login. A
total function: it cannot fail. -/
def logout (st : AuthState) (_store : Storage) :
    AuthState × Storage × List Effect :=
  ({ user := none, token := none, loading := st.loading },
   { authToken := none, userData := none },
   [Effect.removeItem "authToken", Effect.removeItem "userData",
    Effect.navigate "/auth/login"])

/-- The useAuth hook (lines 25-31 of AuthContext.tsx): with an undefined
context value it throws the fixed error message, otherwise it returns the
context value. The hook never inspects the value, so the value type is a
parameter. Except.error models the thrown Error. -/
def useAuth {α : Type} (context : Option α) : Except String α :=
  match context with
  | none => Except.error "useAuth must be used within an AuthProvider"
  | some c => Except.ok c

/-- States (React state paired with durable storage) reachable by any
sequence of the session operations, starting from the mount-time
initSession on an arbitrary stored content. -/
inductive Reachable : AuthState → Storage → Prop where
  | init (parse : String → Option User) (s0 : Storage) :
      Reachable (initSession parse s0).1 (initSession parse s0).2.1
  | loginStep (serialize : User → String) (st : AuthState) (store : Storage)
      (o : ApiOutcome) : Reachable st store →
      Reachable (login serialize st store o).2.1 (login serialize st store o).2.2.1
  | logoutStep (st : AuthState) (store : Storage) : Reachable st store →
      Reachable (logout st store).1 (logout st store).2.1

/-!
Admin dashboard data loader (loadDashboardData in the admin dashboard
page, src/unnamed/part_000 lines 54-123), and the derived-statistics
helper it calls.
-/

/-- An API response of the dashboard CRUD calls: success flag and
optional data payload. -/
structure ApiResponse (α : Type) where
  success : Bool
  data : Option α
deriving DecidableEq, Repr

/-- Outcome of one awaited dashboard request: a resolved response, or a
rejection. Promise.all rejects as soon as any of its promises rejects. -/
inductive FetchOutcome (α : Type) where
  | ok (r : ApiResponse α)
  | threw
deriving DecidableEq, Repr

/-- A raw user record of the users response, as the mapping reads it. -/
structure ApiEmployee where
  idMongo : Option String
  id : String
  name : String
  email : String
  phone : Option String
  role : String
  startDate : String
  department : Option String
deriving DecidableEq, Repr

/-- The dashboard employee view model (the local User interface). -/
structure EmployeeVM where
  id : String
  name : String
  email : String
  phone : Option String
  role : String
  startDate : String
  department : Option String
deriving DecidableEq, Repr

/-- A raw task record of the tasks response, as the mapping reads it. -/
structure ApiTask where
  idMongo : Option String
  id : String
  title : String
  description : String
  status : String
  dueDate : String
  type : Option String
  category : String
  priority : Option String
  assignedTo : Option String
deriving DecidableEq, Repr

/-- The dashboard task view model (the local Task interface). -/
structure TaskVM where
  id : String
  title : String
  description : String
  status : String
  dueDate : String
  category : String
  priority : String
  userId : Option String
deriving DecidableEq, Repr

/-- A raw form record of the forms response, as the mapping reads it.
Field descriptors are kept opaque as strings. -/
structure ApiForm where
  idMongo : Option String
  id : String
  title : String
  description : String
  assignedTo : String
  fields : Option (List String)
  createdAt : String
deriving DecidableEq, Repr

/-- The dashboard form view model (the local Form interface). -/
structure FormVM where
  id : String
  title : String
  description : String
  assignedTo : String
  fields : List String
  createdAt : String
deriving DecidableEq, Repr

/-- The data payload of the forms response: either an object carrying a
forms array, or the array itself, matching data.forms || data. -/
inductive FormsPayload where
  | withForms (forms : List ApiForm)
  | plainList (forms : List ApiForm)
deriving DecidableEq, Repr

/-- The forms array selected by data.forms || data. -/
def FormsPayload.items : FormsPayload → List ApiForm
  | FormsPayload.withForms fs => fs
  | FormsPayload.plainList fs => fs

/-- Mapping of a raw user record into the employee view model: id is
u._id || u.id, other fields copied. -/
def mapEmployee (u : ApiEmployee) : EmployeeVM :=
  { id := jsOrStr u.idMongo u.id
  , name := u.name
  , email := u.email
  , phone := u.phone
  , role := u.role
  , startDate := u.startDate
  , department := u.department }

/-- Mapping of a raw task record into the task view model: id is
t._id || t.id, category is t.type || t.category, priority is
t.priority || the string medium, userId is t.assignedTo. -/
def mapTask (t : ApiTask) : TaskVM :=
  { id := jsOrStr t.idMongo t.id
  , title := t.title
  , description := t.description
  , status := t.status
  , dueDate := t.dueDate
  , category := jsOrStr t.type t.category
  , priority := jsOrStr t.priority "medium"
  , userId := t.assignedTo }

/-- Mapping of a raw form record into the form view model: id is
f._id || f.id, fields is f.fields || the empty array (an empty array is
truthy in JavaScript, so only an absent fields falls back). -/
def mapForm (f : ApiForm) : FormVM :=
  { id := jsOrStr f.idMongo f.id
  , title := f.title
  , description := f.description
  , assignedTo := f.assignedTo
  , fields := f.fields.getD []
  , createdAt := f.createdAt }

/-- The React state of the admin dashboard component that
loadDashboardData updates. -/
structure DashboardState where
  employees : List EmployeeVM
  allTasks : List TaskVM
  forms : List FormVM
  loading : Bool
deriving DecidableEq, Repr

/-- Initial dashboard state: three empty collections, loading false. -/
def initialDashboardState : DashboardState :=
  { employees := [], allTasks := [], forms := [], loading := false }

/-- loadDashboardData (src/unnamed/part_000 lines 54-123). The three
requests are awaited together with Promise.all: if any of them rejects,
control jumps to the catch clause, which resets all three collections to
empty; otherwise each response is examined independently, and only a
response with success and data replaces its collection with the mapped
records, the others keeping their previous value. The finally clause
clears loading on every path. -/
def loadDashboardData (st : DashboardState)
    (usersResponse : FetchOutcome (List ApiEmployee))
    (tasksResponse : FetchOutcome (List ApiTask))
    (formsResponse : FetchOutcome FormsPayload) : DashboardState :=
  match usersResponse, tasksResponse, formsResponse with
  | FetchOutcome.ok ur, FetchOutcome.ok tr, FetchOutcome.ok fr =>
      let st1 :=
        match ur.success, ur.data with
        | true, some ds => { st with employees := ds.map mapEmployee }
        | _, _ => st
      let st2 :=
        match tr.success, tr.data with
        | true, some ds => { st1 with allTasks := ds.map mapTask }
        | _, _ => st1
      let st3 :=
        match fr.success, fr.data with
        | true, some payload => { st2 with forms := payload.items.map mapForm }
        | _, _ => st2
      { st3 with loading := false }
  | _, _, _ =>
      { employees := [], allTasks := [], forms := [], loading := false }

/-- The effect of one resolved response on its collection: a response with
success and data replaces the collection with the mapped records, any
other response leaves the previous value. -/
def respApply {α β : Type} (r : ApiResponse α) (f : α → β) (prev : β) : β :=
  match r.success, r.data with
  | true, some d => f d
  | _, _ => prev

/-- Modelled from the spec: calculateOnboardingProgress is implemented in
the module lib/onboardingUtils, which is not among the provided sources;
only its call sites in the dashboard are. The spec describes it as the
percentage of done items over a task collection, where division by zero
must yield a defined result of 0, never a fault. -/
def calculateOnboardingProgress (tasks : List TaskVM) : Nat :=
  if tasks.length = 0 then 0
  else (tasks.filter (fun t => t.status == "completed")).length * 100 / tasks.length

/-!
Theorems settling the claims.
-/

/-- Claim C1: the claim states that every reachable session state holds the
token if and only if it holds the identity. The code violates this:
initSession on a storage holding a token together with a malformed
identity payload sets the token before the parse throws, so the reached
state holds a token without an identity. -/
theorem reachable_token_without_identity :
    Reachable
      (initSession (fun _ => none) { authToken := some "T", userData := some "bad" }).1
      (initSession (fun _ => none) { authToken := some "T", userData := some "bad" }).2.1 ∧
    (initSession (fun _ => none) { authToken := some "T", userData := some "bad" }).1.token
      = some "T" ∧
    (initSession (fun _ => none) { authToken := some "T", userData := some "bad" }).1.user
      = none :=
  ⟨Reachable.init (fun _ => none) { authToken := some "T", userData := some "bad" },
   rfl, rfl⟩

/-- Claim C2: with both keys present and a malformed identity payload,
initSession removes both persisted keys as claimed, but the resulting
session is not Anonymous: the token, set before the parse threw, stays
in memory while the identity is absent. -/
theorem initSession_malformed_keeps_token :
    initSession (fun _ => none) { authToken := some "T", userData := some "bad" } =
      ({ user := none, token := some "T", loading := false },
       { authToken := none, userData := none },
       [Effect.removeItem "authToken", Effect.removeItem "userData",
        Effect.setLoading false]) :=
  rfl

/-- Claim C3: a login call whose response is a failure or whose awaited
API call throws returns false, leaves an Anonymous session Anonymous,
and ends with the busy indicator false. The embedding of login is a
total function, so no exception propagates to the caller. -/
theorem login_failure_leaves_anonymous (serialize : User → String)
    (st : AuthState) (store : Storage) (o : ApiOutcome)
    (hanon : st.user = none ∧ st.token = none)
    (hfail : o = ApiOutcome.threw ∨
      ∃ r, o = ApiOutcome.ok r ∧ r.success = false) :
    (login serialize st store o).1 = false ∧
    (login serialize st store o).2.1.user = none ∧
    (login serialize st store o).2.1.token = none ∧
    (login serialize st store o).2.1.loading = false := by
  rcases hfail with rfl | ⟨r, rfl, hs⟩
  · exact ⟨rfl, hanon.1, hanon.2, rfl⟩
  · obtain ⟨success, data⟩ := r
    cases hs
    cases data <;> exact ⟨rfl, hanon.1, hanon.2, rfl⟩

/-- Witness for claim C3 at a concrete failure response from a concrete
Anonymous state. -/
theorem login_failure_leaves_anonymous_inst :
    (login (fun _ => "s") { user := none, token := none, loading := false }
      { authToken := none, userData := none }
      (ApiOutcome.ok { success := false, data := none })).1 = false ∧
    (login (fun _ => "s") { user := none, token := none, loading := false }
      { authToken := none, userData := none }
      (ApiOutcome.ok { success := false, data := none })).2.1.user = none ∧
    (login (fun _ => "s") { user := none, token := none, loading := false }
      { authToken := none, userData := none }
      (ApiOutcome.ok { success := false, data := none })).2.1.token = none ∧
    (login (fun _ => "s") { user := none, token := none, loading := false }
      { authToken := none, userData := none }
      (ApiOutcome.ok { success := false, data := none })).2.1.loading = false :=
  login_failure_leaves_anonymous _ _ _ _ ⟨rfl, rfl⟩
    (Or.inr ⟨{ success := false, data := none }, rfl, rfl⟩)

/-- The user payload of the successful login response of claim C4. -/
def apiUserC4 : ApiUser :=
  { idMongo := none, id := "1", name := "A", email := "a@x.com",
    phone := none, role := "user", startDate := none }

/-- The identity record that the login of claim C4 stores. -/
def userC4 : User :=
  { id := "1", name := "A", email := "a@x.com",
    phone := none, role := "user", startDate := none }

/-- Claim C4: a login call whose response is success with accessToken T
and the given user returns true, yields the Authenticated session with
token T and the mapped identity, and writes the token key and the
serialized identity key to durable storage. -/
theorem login_success_authenticates (serialize : User → String)
    (st : AuthState) (store : Storage) :
    login serialize st store
      (ApiOutcome.ok { success := true
                     , data := some { accessToken := "T", user := apiUserC4 } }) =
      (true,
       { user := some userC4, token := some "T", loading := false },
       { authToken := some "T", userData := some (serialize userC4) },
       [Effect.setLoading true,
        Effect.setItem "authToken" "T",
        Effect.setItem "userData" (serialize userC4),
        Effect.setLoading false]) :=
  rfl

/-- Claim C5: logout from any state yields an Anonymous session, removes
both persisted keys, and emits the navigation to the login view exactly
once. The embedding of logout is a total function: it cannot fail. -/
theorem logout_clears_and_navigates_once (st : AuthState) (store : Storage) :
    (logout st store).1.user = none ∧
    (logout st store).1.token = none ∧
    (logout st store).2.1.authToken = none ∧
    (logout st store).2.1.userData = none ∧
    ((logout st store).2.2.filter
      (fun e => match e with | Effect.navigate _ => true | _ => false)) =
      [Effect.navigate "/auth/login"] :=
  ⟨rfl, rfl, rfl, rfl, rfl⟩

/-- Claim C7: on every startup, whatever the storage content and however
the parse goes, the effect list of initSession contains exactly one
busy-indicator update, a setLoading false, it is the last effect, and
the resulting state has loading false. -/
theorem initSession_sets_loading_false_once (parse : String → Option User)
    (store : Storage) :
    ((initSession parse store).2.2.filter
      (fun e => match e with | Effect.setLoading _ => true | _ => false)) =
      [Effect.setLoading false] ∧
    (initSession parse store).2.2.getLast? = some (Effect.setLoading false) ∧
    (initSession parse store).1.loading = false := by
  obtain ⟨a, u⟩ := store
  rcases a with _ | t <;> rcases u with _ | s
  · exact ⟨rfl, rfl, rfl⟩
  · exact ⟨rfl, rfl, rfl⟩
  · exact ⟨rfl, rfl, rfl⟩
  · rcases hp : parse s with _ | v <;> simp [initSession, hp, List.filter]

/-- The employee record of the users response in the counterexample to
claim C6. -/
def empC6 : ApiEmployee :=
  { idMongo := none, id := "e1", name := "E", email := "e@x.com",
    phone := none, role := "user", startDate := "2024-01-01",
    department := none }

/-- Counterexample to claim C6: with a successful users response and a
thrown tasks request, the catch clause resets every collection, so the
succeeding users data is not retained: the employees collection ends
empty even though the mapped users data is non-empty. -/
theorem loadDashboard_throw_discards_other_success :
    (loadDashboardData initialDashboardState
      (FetchOutcome.ok { success := true, data := some [empC6] })
      FetchOutcome.threw
      (FetchOutcome.ok { success := true
                       , data := some (FormsPayload.plainList []) })).employees
      = [] ∧
    [empC6].map mapEmployee ≠ [] :=
  ⟨rfl, by simp⟩

/-- Claim C6, amended: when no request throws, the three responses are
handled independently, each success-with-data response replacing its
collection with the mapped records and every other response leaving the
previous value; but when any request throws, the catch clause resets all
three collections to empty, discarding the data of the succeeding
requests. Loading ends false either way. -/
theorem loadDashboard_partial_failure_amended (st : DashboardState)
    (ur : ApiResponse (List ApiEmployee)) (tr : ApiResponse (List ApiTask))
    (fr : ApiResponse FormsPayload)
    (u : FetchOutcome (List ApiEmployee)) (t : FetchOutcome (List ApiTask))
    (f : FetchOutcome FormsPayload)
    (h : u = FetchOutcome.threw ∨ t = FetchOutcome.threw ∨
      f = FetchOutcome.threw) :
    loadDashboardData st (FetchOutcome.ok ur) (FetchOutcome.ok tr)
        (FetchOutcome.ok fr) =
      { employees := respApply ur (List.map mapEmployee) st.employees
      , allTasks := respApply tr (List.map mapTask) st.allTasks
      , forms := respApply fr (fun p => p.items.map mapForm) st.forms
      , loading := false } ∧
    loadDashboardData st u t f =
      { employees := [], allTasks := [], forms := [], loading := false } := by
  constructor
  · obtain ⟨us, ud⟩ := ur
    obtain ⟨ts, td⟩ := tr
    obtain ⟨fs, fd⟩ := fr
    cases us <;> cases ud <;> cases ts <;> cases td <;> cases fs <;> cases fd <;>
      simp [loadDashboardData, respApply]
  · rcases h with rfl | rfl | rfl
    · cases t <;> cases f <;> rfl
    · cases u <;> cases f <;> rfl
    · cases u <;> cases t <;> rfl

/-- Witness for the amended claim C6 at a concrete thrown users request. -/
theorem loadDashboard_partial_failure_amended_inst :
    loadDashboardData initialDashboardState FetchOutcome.threw
      (FetchOutcome.ok { success := false, data := none })
      (FetchOutcome.ok { success := false, data := none }) =
      { employees := [], allTasks := [], forms := [], loading := false } :=
  (loadDashboard_partial_failure_amended initialDashboardState
    { success := false, data := none } { success := false, data := none }
    { success := false, data := none } FetchOutcome.threw
    (FetchOutcome.ok { success := false, data := none })
    (FetchOutcome.ok { success := false, data := none }) (Or.inl rfl)).2

/-- Claim C8: the onboarding-progress computation on the empty task
collection returns 0; the division is guarded by the emptiness test, and
the function is total, so it never faults. -/
theorem progress_empty_tasks_zero : calculateOnboardingProgress [] = 0 :=
  rfl

/-- Claim C9: when exactly one of the two persisted keys is present,
initSession leaves the session empty and the storage unchanged: the lone
remaining key is not removed. -/
theorem initSession_single_key_frame (parse : String → Option User)
    (store : Storage)
    (h : store.authToken.isSome ≠ store.userData.isSome) :
    (initSession parse store).1.user = none ∧
    (initSession parse store).1.token = none ∧
    (initSession parse store).2.1 = store := by
  obtain ⟨a, u⟩ := store
  rcases a with _ | t <;> rcases u with _ | s
  · exact ⟨rfl, rfl, rfl⟩
  · exact ⟨rfl, rfl, rfl⟩
  · exact ⟨rfl, rfl, rfl⟩
  · exact absurd rfl h

/-- Witness for claim C9 at a storage holding only the token key. -/
theorem initSession_single_key_frame_inst :
    (initSession (fun _ => none)
      { authToken := some "T", userData := none }).1.user = none ∧
    (initSession (fun _ => none)
      { authToken := some "T", userData := none }).1.token = none ∧
    (initSession (fun _ => none)
      { authToken := some "T", userData := none }).2.1 =
      { authToken := some "T", userData := none } :=
  initSession_single_key_frame (fun _ => none)
    { authToken := some "T", userData := none } (by decide)

/-- Claim C10: useAuth on an undefined context value throws the fixed
error message, and on a defined context value returns that value without
throwing, whatever the value is. -/
theorem useAuth_requires_provider (α : Type) (v : α) :
    useAuth (none : Option α) =
      Except.error "useAuth must be used within an AuthProvider" ∧
    useAuth (some v) = Except.ok v :=
  ⟨rfl, rfl⟩

end OnboardingPortal
